import Mathlib

/-!
Verification of the chat-session state manager of the Indian-LegalGPT
frontend (file src/frontend_v2/src/components/ThemeToggle.jsx, component
AskQuestionPage, plus its api client).

Embedding conventions:
- Browser strings are Lean String values; JavaScript string operations that
  work on UTF-16 code units are modelled on the character list (the inputs
  of interest are plain text, where the two coincide).
- React state updates inside one event handler are modelled as an atomic
  state transformer on an explicit state record; the awaited result of the
  single outbound network call of a handler is passed as an Except value.
- localStorage is modelled as a record holding the decoded value of the two
  keys managed by the component (the JSON round trip is the identity on the
  decoded values).
- The JavaScript truthiness test on the active chat id (a string or null)
  is modelled by isFalsyId: null and the empty string are falsy.
-/

/-- A chat message, source shape: `\x7b role, content \x7d`. -/
structure Message where
  role : String
  content : String
deriving DecidableEq, Repr

/-- A chat thread, source shape:
`\x7b id, title, messages, createdAt \x7d` (see handleNewChat). -/
structure ChatThread where
  id : String
  title : String
  messages : List Message
  createdAt : Nat
deriving DecidableEq, Repr

/-- The session state: the `chats` list and the `activeChatId` pointer
(React state of AskQuestionPage). `none` models the JavaScript `null`. -/
structure SessionState where
  chats : List ChatThread
  activeChatId : Option String
deriving DecidableEq, Repr

def emptySession : SessionState := { chats := [], activeChatId := none }

/-- JavaScript truthiness of `activeChatId` (a string or null):
`!activeChatId` is true exactly when the value is null or the empty
string. -/
def isFalsyId : Option String → Bool
  | none => true
  | some s => s == ""

/-- Models `String.prototype.trim` (drop whitespace at both ends),
written on the character list so that it evaluates by kernel reduction. -/
def jsTrim (s : String) : String :=
  String.mk (((s.data.dropWhile Char.isWhitespace).reverse.dropWhile
    Char.isWhitespace).reverse)

/-- Helper for splitting on whitespace runs: accumulates the current word
(in reverse) and emits it when a whitespace character or the end is hit. -/
def splitWsAux : List Char → List Char → List String
  | [], acc => if acc = [] then [] else [String.mk acc.reverse]
  | c :: rest, acc =>
    if Char.isWhitespace c then
      if acc = [] then splitWsAux rest []
      else String.mk acc.reverse :: splitWsAux rest []
    else splitWsAux rest (c :: acc)

/-- Models `s.split(/\s+/)` as used in generateChatTitle, where `s` has
already been trimmed: the empty string splits to a single empty piece
(JavaScript returns a one-element array there), and otherwise the result
is the list of maximal whitespace-free runs. -/
def jsSplitWhitespace (s : String) : List String :=
  if s = "" then [""] else splitWsAux s.data []

/-- Models `Array.prototype.join(sep)`. -/
def jsJoin (sep : String) : List String → String
  | [] => ""
  | w :: ws => ws.foldl (fun acc x => acc ++ sep ++ x) w

/-- Models `s.substring(0, n)` (on characters, see conventions). -/
def jsSubstringTo (n : Nat) (s : String) : String :=
  String.mk (s.data.take n)

/-- Source `generateChatTitle` (the spec calls it titleFromText):
empty content is falsy and yields the sentinel; otherwise the trimmed
content is returned when it has at most 3 whitespace-separated words, and
otherwise the first 4 words joined by single spaces, cut to 30 characters
plus an ellipsis when the join is longer than 30 characters. -/
def generateChatTitle (content : String) : String :=
  if content = "" then "New Chat"
  else
    let words := jsSplitWhitespace (jsTrim content)
    if words.length ≤ 3 then jsTrim content
    else
      let title := jsJoin " " (words.take 4)
      if title.length > 30 then jsSubstringTo 30 title ++ "..." else title

/-- Models `name.replace(/\.[^/.]+$/, "")` from handleFileChange: when the
name has a final dot followed by at least one character, none of which is
a slash or a dot, that suffix (dot included) is removed; otherwise the
name is unchanged. -/
def stripExt (name : String) : String :=
  let rev := name.data.reverse
  let ext := rev.takeWhile (fun c => c != '.')
  if ext.length = rev.length then name
  else if ext.length = 0 then name
  else if ext.contains '/' then name
  else String.mk ((rev.drop (ext.length + 1)).reverse)

/-- Maps `f` over exactly the threads whose id equals `aid`; this is the
`chats.map(chat => chat.id === aid ? ... : chat)` pattern shared by
appendMessage and updateChatTitle. -/
def updateById (aid : String) (f : ChatThread → ChatThread)
    (l : List ChatThread) : List ChatThread :=
  l.map (fun c => if c.id = aid then f c else c)

/-- Source `appendMessage(role, content)`: returns early when
`activeChatId` is falsy, otherwise appends the message to every thread
whose id equals the active id. -/
def appendMessage (role content : String) (s : SessionState) : SessionState :=
  match s.activeChatId with
  | none => s
  | some aid =>
    if aid = "" then s
    else
      let f := fun c => { c with messages := c.messages ++ [⟨role, content⟩] }
      { s with chats := updateById aid f s.chats }

/-- Source `updateChatTitle(chatId, newTitle)`. -/
def updateChatTitle (chatId newTitle : String) (s : SessionState) : SessionState :=
  { s with chats := updateById chatId (fun c => { c with title := newTitle }) s.chats }

/-- Session-level part of source `handleNewChat`: a fresh thread with the
sentinel title and an empty message list is prepended and made active.
The fresh id (uuidv4 in the source) and the timestamp (Date.now) are
parameters. -/
def createThread (freshId : String) (now : Nat) (s : SessionState) : SessionState :=
  { chats := { id := freshId, title := "New Chat", messages := [], createdAt := now } :: s.chats,
    activeChatId := some freshId }

/-- Session-level part of source `handleSelectChat(id)`: sets the active
id unconditionally. -/
def handleSelectChat (id : String) (s : SessionState) : SessionState :=
  { s with activeChatId := some id }

/-- Models `remaining[0]?.id || null`: the id of the first thread, with a
falsy id (the empty string) collapsed to null. -/
def jsFirstIdOrNull (l : List ChatThread) : Option String :=
  match l.head? with
  | none => none
  | some c => if c.id = "" then none else some c.id

/-- Session-level part of source `handleDeleteChat(id)`: filters the
thread out and, when it was the active one, reassigns the active id to
the first remaining thread (or null). -/
def handleDeleteChat (did : String) (s : SessionState) : SessionState :=
  let remaining := s.chats.filter (fun c => c.id != did)
  { chats := remaining,
    activeChatId :=
      if s.activeChatId = some did then jsFirstIdOrNull remaining
      else s.activeChatId }

/-- Source `getActiveChat`: `chats.find(c => c.id === activeChatId)`;
a null active id matches no thread. -/
def getActiveChat (s : SessionState) : Option ChatThread :=
  match s.activeChatId with
  | none => none
  | some aid => s.chats.find? (fun c => c.id == aid)

/-- The session mutations, as an operation alphabet for reasoning about
sequences of calls. -/
inductive Op where
  | create (freshId : String) (now : Nat)
  | select (id : String)
  | delete (id : String)
  | append (role content : String)
  | rename (id newTitle : String)
deriving DecidableEq, Repr

def applyOp (o : Op) (s : SessionState) : SessionState :=
  match o with
  | Op.create freshId now => createThread freshId now s
  | Op.select id => handleSelectChat id s
  | Op.delete id => handleDeleteChat id s
  | Op.append role content => appendMessage role content s
  | Op.rename id newTitle => updateChatTitle id newTitle s

def isCreateOrDelete : Op → Bool
  | Op.create _ _ => true
  | Op.delete _ => true
  | _ => false

def run (ops : List Op) (s : SessionState) : SessionState :=
  ops.foldl (fun s o => applyOp o s) s

/-- Boolean form of the active-pointer invariant: the active id is null or
the id of some thread in the list. -/
def activeOk (s : SessionState) : Bool :=
  match s.activeChatId with
  | none => true
  | some aid => s.chats.any (fun c => c.id == aid)

/-- Upload status values of AskQuestionPage. -/
inductive UploadStatus where
  | idle
  | uploading
  | success
  | error
deriving DecidableEq, Repr

/-- The component state touched by the handlers under verification:
the session plus the input buffer, the loading flag, the features-panel
flag and the upload status fields. -/
structure ClientState where
  session : SessionState
  input : String
  isLoading : Bool
  showFeatures : Bool
  uploadStatus : UploadStatus
  uploadedFileName : String
deriving DecidableEq, Repr

def emptyClient : ClientState :=
  { session := emptySession, input := "", isLoading := false,
    showFeatures := true, uploadStatus := UploadStatus.idle,
    uploadedFileName := "" }

/-- Source `handleNewChat`: creates and activates the fresh thread,
clears the input buffer and shows the features panel. -/
def handleNewChat (freshId : String) (now : Nat) (st : ClientState) : ClientState :=
  { st with session := createThread freshId now st.session,
            input := "", showFeatures := true }

/-- The fixed error text appended by handleSend when the awaited call
throws. -/
def errorChatMsg : String :=
  "❌ Error contacting server. Please check if the backend is running."

/-- The fixed error text appended by handleFileChange when the upload
throws. -/
def errorUploadMsg : String :=
  "❌ Error uploading document. Please check if the backend is running."

/-- The body of source `handleSend` once an active chat exists: appends
the user message, clears the input, hides the features panel, awaits the
outbound call (chat query or document generation, its outcome passed as
`response`), then on success appends the assistant message and derives a
title when the active thread still carries the sentinel, and on failure
appends the fixed error message; the loading flag is cleared at the end.
The text-to-speech side call has no effect on this state. -/
def sendCore (text : String) (response : Except Unit String)
    (st : ClientState) : ClientState :=
  match st.session.activeChatId with
  | none => st
  | some aid =>
    if aid = "" then st
    else
      let s1 := appendMessage "user" text st.session
      match response with
      | Except.ok aiResponse =>
        let s2 := appendMessage "assistant" aiResponse s1
        let s3 :=
          match getActiveChat s2 with
          | some c =>
            if c.title = "New Chat" then
              updateChatTitle aid (generateChatTitle text) s2
            else s2
          | none => s2
        { st with session := s3, input := "", showFeatures := false,
                  isLoading := false }
      | Except.error _ =>
        let s2 := appendMessage "assistant" errorChatMsg s1
        { st with session := s2, input := "", showFeatures := false,
                  isLoading := false }

/-- Source `handleSend` in the reading its comments document (wait for
the chat to be created, then send): a no-op on blank input; with a falsy
active id it first runs handleNewChat, with the retried body observing
the committed thread creation and the text captured at event time. The
deferred setTimeout retry of the source does not realize that intent: the
callback re-invokes the closure of the scheduling render and re-reads the
stale null active id, see `handleSendEvent` for the executed semantics.
No theorem in this file relies on the falsy-active branch of this
definition; the theorems about it assume an existing truthy active id,
where it coincides with the executed semantics. -/
def handleSend (freshId : String) (now : Nat) (text : String)
    (response : Except Unit String) (st : ClientState) : ClientState :=
  if jsTrim text = "" then st
  else if isFalsyId st.session.activeChatId then
    sendCore text response (handleNewChat freshId now st)
  else sendCore text response st

/-- The body of source `handleFileChange` once an active chat exists:
records the file name, awaits the upload call and then either applies the
extension-stripped document name as the thread title (success) or appends
the fixed upload error message (failure); the loading flag is cleared at
the end. The delayed reset of the status display to idle is a timer with
no bearing on the session state and is not modelled. -/
def uploadCore (fileName : String) (result : Except Unit String)
    (st : ClientState) : ClientState :=
  match st.session.activeChatId with
  | none => st
  | some aid =>
    if aid = "" then st
    else
      match result with
      | Except.ok _ =>
        { st with session := updateChatTitle aid (stripExt fileName) st.session,
                  uploadStatus := UploadStatus.success,
                  uploadedFileName := fileName,
                  showFeatures := false, isLoading := false }
      | Except.error _ =>
        { st with session := appendMessage "assistant" errorUploadMsg st.session,
                  uploadStatus := UploadStatus.error,
                  uploadedFileName := fileName,
                  isLoading := false }

/-- Source `handleFileChange` with a selected file: with a falsy active
id it first runs handleNewChat and then retries; as with `handleSend`,
this definition gives the falsy-active branch the intended reading, while
the setTimeout retry of the source re-invokes the stale scheduling
closure. No theorem in this file relies on the falsy-active branch; the
theorem about this handler assumes an existing truthy active id, where
the definition coincides with the executed semantics. -/
def handleFileChange (freshId : String) (now : Nat) (fileName : String)
    (result : Except Unit String) (st : ClientState) : ClientState :=
  if isFalsyId st.session.activeChatId then
    uploadCore fileName result (handleNewChat freshId now st)
  else uploadCore fileName result st

/-- The values a render closure of AskQuestionPage captures and that a
deferred handleSend retry reads: the setTimeout callback scheduled by the
creation-on-demand branch invokes the handleSend of the render that
created it, so every read of `chats`, `activeChatId` and `input` inside
that call sees these captured values, while the functional setChats
updaters and the plain setters act on the committed state. -/
structure RenderCapture where
  chats : List ChatThread
  activeChatId : Option String
  input : String
deriving DecidableEq, Repr

/-- The capture an event handler of the current render holds: for an
initial user-triggered invocation the captured values coincide with the
committed ones. -/
def captureOf (st : ClientState) : RenderCapture :=
  { chats := st.session.chats, activeChatId := st.session.activeChatId,
    input := st.input }

/-- Source `handleSend` as it executes: reads of `input`, `activeChatId`
and `chats` come from the capture of the invoking closure, state writes
go to the committed state. Returns the new committed state together with
the capture of a scheduled deferred retry when the creation-on-demand
branch ran; that capture is the present capture itself, because the
setTimeout callback re-invokes the same closure, not the handler of the
re-rendered component. On the truthy-captured-id path the appends key on
the captured id against the committed thread list (the source
appendMessage uses a functional updater but reads the id from its
closure) and the sentinel check reads the captured thread list (the
source getActiveChat searches the closure value of `chats`). -/
def handleSendEvent (freshId : String) (now : Nat)
    (response : Except Unit String) (cap : RenderCapture) (st : ClientState) :
    ClientState × Option RenderCapture :=
  if jsTrim cap.input = "" then (st, none)
  else
    match cap.activeChatId with
    | none => (handleNewChat freshId now st, some cap)
    | some aid =>
      if aid = "" then (handleNewChat freshId now st, some cap)
      else
        let fUser := fun c => { c with messages := c.messages ++ [⟨"user", cap.input⟩] }
        let s1 := { st.session with chats := updateById aid fUser st.session.chats }
        match response with
        | Except.ok aiResponse =>
          let fAsst := fun c => { c with messages := c.messages ++ [⟨"assistant", aiResponse⟩] }
          let s2 := { s1 with chats := updateById aid fAsst s1.chats }
          let capActiveChat := cap.chats.find? (fun c => c.id == aid)
          let s3 :=
            match capActiveChat with
            | some c =>
              if c.title = "New Chat" then
                updateChatTitle aid (generateChatTitle cap.input) s2
              else s2
            | none => s2
          ({ st with session := s3, input := "", showFeatures := false,
                     isLoading := false }, none)
        | Except.error _ =>
          let fErr := fun c => { c with messages := c.messages ++ [⟨"assistant", errorChatMsg⟩] }
          let s2 := { s1 with chats := updateById aid fErr s1.chats }
          ({ st with session := s2, input := "", showFeatures := false,
                     isLoading := false }, none)

/-- The client state at the failing input of the creation-on-demand
analysis: the empty session with the text hi typed into the input
buffer. -/
def sendBugStart : ClientState :=
  { session := emptySession, input := "hi", isLoading := false,
    showFeatures := true, uploadStatus := UploadStatus.idle,
    uploadedFileName := "" }

/-- The capture held by the closure that handles the initial send on
`sendBugStart`; every deferred retry in the resulting chain carries this
same capture. -/
def sendBugCapture : RenderCapture := captureOf sendBugStart

/-- The committed state and pending retry after the initial send event on
`sendBugStart` followed by two firings of the deferred retry, each firing
drawing a fresh uuid and timestamp. -/
def sendBugTrace : ClientState × Option RenderCapture :=
  handleSendEvent "C" 2 (Except.ok "r") sendBugCapture
    (handleSendEvent "B" 1 (Except.ok "r") sendBugCapture
      (handleSendEvent "A" 0 (Except.ok "r") sendBugCapture sendBugStart).1).1

/-- The two localStorage keys managed by AskQuestionPage, holding the
decoded values; `none` models an absent key. -/
structure Store where
  chats : Option (List ChatThread)
  activeChatId : Option String
deriving DecidableEq, Repr

def emptyStore : Store := { chats := none, activeChatId := none }

/-- Effect `localStorage.setItem(..chats.., JSON.stringify(chats))`, run
after every change of `chats`. -/
def persistChatsKey (chats : List ChatThread) (store : Store) : Store :=
  { store with chats := some chats }

/-- Effect guarded by `if (activeChatId)`: the key is written only when
the active id is truthy; a null (or empty) active id leaves the stored
value untouched. -/
def persistActiveKey (a : Option String) (store : Store) : Store :=
  if isFalsyId a then store else { store with activeChatId := a }

/-- Both persistence effects, as run after a committed mutation. -/
def commitStore (s : SessionState) (store : Store) : Store :=
  persistActiveKey s.activeChatId (persistChatsKey s.chats store)

/-- Startup rehydration: `saved ? JSON.parse(saved) : []` for the thread
list and `saved || null` for the active id. -/
def rehydrate (store : Store) : SessionState :=
  { chats := store.chats.getD [],
    activeChatId :=
      match store.activeChatId with
      | none => none
      | some v => if v = "" then none else some v }

/-- One session mutation followed by the persistence effects. -/
def stepPersist (o : Op) (p : SessionState × Store) : SessionState × Store :=
  let s2 := applyOp o p.1
  (s2, commitStore s2 p.2)

def runPersist (ops : List Op) (p : SessionState × Store) : SessionState × Store :=
  ops.foldl (fun p o => stepPersist o p) p

/-! Helper lemmas. -/

theorem updateById_eq_of_ne (aid : String) (f : ChatThread → ChatThread)
    (l : List ChatThread) (h : ∀ c ∈ l, c.id ≠ aid) : updateById aid f l = l := by
  induction l with
  | nil => rfl
  | cons c t ih =>
    have hc : c.id ≠ aid := h c (by simp)
    have ht : ∀ x ∈ t, x.id ≠ aid := fun x hx => h x (by simp [hx])
    show (if c.id = aid then f c else c) :: updateById aid f t = c :: t
    rw [if_neg hc, ih ht]

theorem find?_updateById (aid : String) (f : ChatThread → ChatThread)
    (hf : ∀ c, (f c).id = c.id) (l : List ChatThread) :
    (updateById aid f l).find? (fun c => c.id == aid)
      = (l.find? (fun c => c.id == aid)).map f := by
  induction l with
  | nil => rfl
  | cons c t ih =>
    show ((if c.id = aid then f c else c) :: updateById aid f t).find? (fun c => c.id == aid)
        = ((c :: t).find? (fun c => c.id == aid)).map f
    by_cases hc : c.id = aid
    · rw [if_pos hc, List.find?_cons_of_pos _ (by simp [hf c, hc]),
          List.find?_cons_of_pos _ (by simp [hc])]
      rfl
    · rw [if_neg hc, List.find?_cons_of_neg _ (by simp [hc]),
          List.find?_cons_of_neg _ (by simp [hc]), ih]

theorem appendMessage_activeChatId (role content : String) (s : SessionState) :
    (appendMessage role content s).activeChatId = s.activeChatId := by
  cases h : s.activeChatId with
  | none => simp [appendMessage, h]
  | some aid => by_cases ha : aid = "" <;> simp [appendMessage, h, ha]

theorem appendMessage_chats (role content aid : String) (s : SessionState)
    (ha : s.activeChatId = some aid) (hne : aid ≠ "") :
    (appendMessage role content s).chats
      = updateById aid (fun c => { c with messages := c.messages ++ [⟨role, content⟩] })
          s.chats := by
  simp [appendMessage, ha, hne]

theorem getActiveChat_appendMessage (role content aid : String) (s : SessionState)
    (ha : s.activeChatId = some aid) (hne : aid ≠ "") :
    getActiveChat (appendMessage role content s)
      = (getActiveChat s).map
          (fun c => { c with messages := c.messages ++ [⟨role, content⟩] }) := by
  simp [appendMessage, getActiveChat, ha, hne]
  exact find?_updateById aid
    (fun c => { c with messages := c.messages ++ [⟨role, content⟩] })
    (fun c => rfl) s.chats

theorem getActiveChat_updateChatTitle (newTitle aid : String) (s : SessionState)
    (ha : s.activeChatId = some aid) :
    getActiveChat (updateChatTitle aid newTitle s)
      = (getActiveChat s).map (fun c => { c with title := newTitle }) := by
  simp [updateChatTitle, getActiveChat, ha]
  exact find?_updateById aid (fun c => { c with title := newTitle })
    (fun c => rfl) s.chats

theorem activeOk_firstId (l : List ChatThread) :
    activeOk { chats := l, activeChatId := jsFirstIdOrNull l } = true := by
  cases l with
  | nil => rfl
  | cons c t =>
    by_cases hce : c.id = ""
    · simp [activeOk, jsFirstIdOrNull, hce]
    · simp [activeOk, jsFirstIdOrNull, hce]

theorem activeOk_applyOp (o : Op) (s : SessionState)
    (ho : isCreateOrDelete o = true) (h : activeOk s = true) :
    activeOk (applyOp o s) = true := by
  cases o with
  | select id => simp [isCreateOrDelete] at ho
  | append role content => simp [isCreateOrDelete] at ho
  | rename id newTitle => simp [isCreateOrDelete] at ho
  | create freshId now => simp [applyOp, createThread, activeOk]
  | delete did =>
    cases hA : s.activeChatId with
    | none =>
      simp [applyOp, handleDeleteChat, activeOk, hA]
    | some aid =>
      by_cases hd : aid = did
      · have hif : s.activeChatId = some did := by rw [hA, hd]
        have heq : applyOp (Op.delete did) s
            = { chats := s.chats.filter (fun c => c.id != did),
                activeChatId := jsFirstIdOrNull (s.chats.filter (fun c => c.id != did)) } := by
          simp [applyOp, handleDeleteChat, hif]
        rw [heq]
        exact activeOk_firstId _
      · have hne2 : s.activeChatId ≠ some did := by simp [hA, hd]
        have heq : applyOp (Op.delete did) s
            = { chats := s.chats.filter (fun c => c.id != did),
                activeChatId := s.activeChatId } := by
          simp [applyOp, handleDeleteChat, hne2]
        rw [heq]
        have hmem : ∃ c ∈ s.chats, c.id = aid := by
          simpa [activeOk, hA, List.any_eq_true] using h
        obtain ⟨c, hcmem, hcid⟩ := hmem
        simp only [activeOk, hA, List.any_eq_true]
        refine ⟨c, ?_, by simp [hcid]⟩
        simp [List.mem_filter, hcmem, hcid, hd]

theorem activeOk_run (ops : List Op) : ∀ s : SessionState, activeOk s = true →
    (∀ o ∈ ops, isCreateOrDelete o = true) → activeOk (run ops s) = true := by
  induction ops with
  | nil => intro s h _; exact h
  | cons o t ih =>
    intro s h hall
    have h1 := activeOk_applyOp o s (hall o (by simp)) h
    show activeOk (run t (applyOp o s)) = true
    exact ih (applyOp o s) h1 (fun x hx => hall x (by simp [hx]))

theorem updateById_cons (aid : String) (f : ChatThread → ChatThread)
    (c : ChatThread) (l : List ChatThread) :
    updateById aid f (c :: l) = (if c.id = aid then f c else c) :: updateById aid f l :=
  rfl

/-! Claim theorems. -/

/-- Claim C1: for every sequence of createThread and deleteThread
operations starting from the empty session state, the resulting active
chat id is either none or the id of a thread present in the thread
list. -/
theorem activeChatId_references_existing (ops : List Op)
    (h : ∀ o ∈ ops, isCreateOrDelete o = true) :
    activeOk (run ops emptySession) = true :=
  activeOk_run ops emptySession rfl h

/-- Claim C1 witness: a concrete create and delete sequence. -/
theorem activeChatId_references_existing_witness :
    activeOk (run [Op.create "a" 0, Op.create "b" 1, Op.delete "a", Op.delete "b"]
      emptySession) = true :=
  activeChatId_references_existing
    [Op.create "a" 0, Op.create "b" 1, Op.delete "a", Op.delete "b"] (by decide)

/-- Claim C6 counterexample: an input with at most 3 whitespace-separated
words is not always returned unchanged; surrounding whitespace is
trimmed away. -/
theorem titleFromText_cex :
    generateChatTitle " Hello " = "Hello" ∧ " Hello " ≠ "Hello" := by
  decide

/-- Claim C6 (amended): generateChatTitle returns the sentinel for the
empty input; for nonempty input whose trimmed form has at most 3
whitespace-separated words it returns the trimmed input rather than the
input itself; for more words it returns the first 4 words joined by
single spaces, cut to 30 characters plus an ellipsis when that join is
longer than 30 characters; in particular Hello maps to Hello. -/
theorem titleFromText_spec :
    generateChatTitle "" = "New Chat"
    ∧ (∀ text : String, text ≠ "" →
        (jsSplitWhitespace (jsTrim text)).length ≤ 3 →
        generateChatTitle text = jsTrim text)
    ∧ (∀ text : String, text ≠ "" →
        3 < (jsSplitWhitespace (jsTrim text)).length →
        generateChatTitle text
          = (if (jsJoin " " ((jsSplitWhitespace (jsTrim text)).take 4)).length > 30
             then jsSubstringTo 30 (jsJoin " " ((jsSplitWhitespace (jsTrim text)).take 4)) ++ "..."
             else jsJoin " " ((jsSplitWhitespace (jsTrim text)).take 4)))
    ∧ generateChatTitle "Hello" = "Hello"
    ∧ generateChatTitle "one two three four five six" = "one two three four" := by
  refine ⟨by decide, ?_, ?_, by decide, by decide⟩
  · intro text h1 h2
    simp [generateChatTitle, h1, h2]
  · intro text h1 h2
    have h3 : ¬ (jsSplitWhitespace (jsTrim text)).length ≤ 3 := by omega
    simp [generateChatTitle, h1, h3]

/-- Claim C6 witness: both amended branches on concrete inputs. -/
theorem titleFromText_spec_witness :
    generateChatTitle " hi " = "hi" ∧ generateChatTitle "a b c d e" = "a b c d" :=
  ⟨(titleFromText_spec.2.1 " hi " (by decide) (by decide)).trans (by decide),
   (titleFromText_spec.2.2.1 "a b c d e" (by decide) (by decide)).trans (by decide)⟩

/-- Claim C7 counterexample: selecting an id that belongs to no thread is
not a no-op; on the empty session it makes the active id that id. -/
theorem selectThread_cex :
    (handleSelectChat "ghost" emptySession).activeChatId = some "ghost"
    ∧ emptySession.chats.all (fun c => c.id != "ghost") = true := by
  decide

/-- Claim C7 (amended): handleSelectChat sets the active id to the given
id unconditionally, whether or not a thread with that id exists, and
leaves the thread list unchanged. -/
theorem selectThread_unconditional (s : SessionState) (id : String) :
    (handleSelectChat id s).activeChatId = some id
    ∧ (handleSelectChat id s).chats = s.chats :=
  ⟨rfl, rfl⟩

/-- Claim C2 counterexample: creating thread A and then deleting it (a
mutation that sets the active id to none) leaves the stored activeChatId
key at the stale value A, because the persistence effect is guarded by a
truthiness test; a later rehydration then reports A as active over an
empty thread list. -/
theorem persistence_none_cex :
    (runPersist [Op.create "A" 0, Op.delete "A"] (emptySession, emptyStore)).1.activeChatId
      = none
    ∧ (runPersist [Op.create "A" 0, Op.delete "A"] (emptySession, emptyStore)).2.activeChatId
      = some "A"
    ∧ (rehydrate (runPersist [Op.create "A" 0, Op.delete "A"]
        (emptySession, emptyStore)).2).activeChatId = some "A" := by
  decide

/-- Claim C2 (amended): after every mutation the chats key holds the new
thread list; the activeChatId key holds the new active id whenever that
id is truthy, while a mutation that sets the active id to none leaves the
previously stored value in place; and rehydrating from an empty store
yields the empty session. -/
theorem persistence_after_mutation (s : SessionState) (store : Store) :
    (commitStore s store).chats = some s.chats
    ∧ (∀ aid : String, s.activeChatId = some aid → aid ≠ "" →
        (commitStore s store).activeChatId = some aid)
    ∧ (s.activeChatId = none →
        (commitStore s store).activeChatId = store.activeChatId)
    ∧ rehydrate emptyStore = emptySession := by
  refine ⟨?_, ?_, ?_, rfl⟩
  · unfold commitStore persistActiveKey persistChatsKey
    by_cases hf : isFalsyId s.activeChatId = true
    · rw [if_pos hf]
    · rw [if_neg hf]
  · intro aid hA hne
    unfold commitStore persistActiveKey persistChatsKey
    rw [hA, if_neg (by simp [isFalsyId, hne])]
  · intro hA
    unfold commitStore persistActiveKey persistChatsKey
    rw [hA, if_pos (by simp [isFalsyId])]

/-- Claim C2 witness: the truthy branch persists the new active id. -/
theorem persistence_after_mutation_witness :
    (commitStore ⟨[⟨"A", "New Chat", [], 0⟩], some "A"⟩ emptyStore).activeChatId
      = some "A" :=
  (persistence_after_mutation ⟨[⟨"A", "New Chat", [], 0⟩], some "A"⟩
    emptyStore).2.1 "A" rfl (by decide)

/-- Claim C4: handleDeleteChat removes exactly the threads carrying the
given id and keeps all others in place; when the deleted thread was
active, the active id becomes the id of the first remaining thread, or
none when the list becomes empty; deleting the active thread when it is
the only thread leaves the list empty with no active thread. The
hypothesis that thread ids are nonempty reflects that real ids are
uuids; a first remaining thread with an empty id would be collapsed to
none by the source's falsy-coalescing expression. -/
theorem deleteThread_spec (s : SessionState) (did : String) :
    (handleDeleteChat did s).chats = s.chats.filter (fun c => c.id != did)
    ∧ (∀ c : ChatThread, c ∈ (handleDeleteChat did s).chats ↔ (c ∈ s.chats ∧ c.id ≠ did))
    ∧ (s.activeChatId = some did → (∀ c ∈ s.chats, c.id ≠ "") →
        (handleDeleteChat did s).activeChatId
          = ((s.chats.filter (fun c => c.id != did)).head?).map (fun c => c.id))
    ∧ (s.activeChatId ≠ some did →
        (handleDeleteChat did s).activeChatId = s.activeChatId)
    ∧ (s.chats.map (fun c => c.id) = [did] → s.activeChatId = some did →
        (handleDeleteChat did s).chats = [] ∧ (handleDeleteChat did s).activeChatId = none) := by
  refine ⟨rfl, ?_, ?_, ?_, ?_⟩
  · intro c
    simp [handleDeleteChat, List.mem_filter]
  · intro hA hall
    cases hr : s.chats.filter (fun c => c.id != did) with
    | nil => simp [handleDeleteChat, hA, hr, jsFirstIdOrNull]
    | cons c t =>
      have hcmem : c ∈ s.chats := by
        have : c ∈ s.chats.filter (fun c => c.id != did) := by
          rw [hr]; exact List.mem_cons_self c t
        exact (List.mem_filter.1 this).1
      have hcne : c.id ≠ "" := hall c hcmem
      simp [handleDeleteChat, hA, hr, jsFirstIdOrNull, hcne]
  · intro hne
    simp [handleDeleteChat, hne]
  · intro hmap hA
    obtain ⟨c, t, hc⟩ : ∃ c t, s.chats = c :: t := by
      cases hcc : s.chats with
      | nil => rw [hcc] at hmap; simp at hmap
      | cons c t => exact ⟨c, t, rfl⟩
    rw [hc] at hmap
    simp at hmap
    obtain ⟨hcid, ht⟩ := hmap
    have hfil : s.chats.filter (fun c => c.id != did) = [] := by
      rw [hc, ht]
      simp [hcid]
    constructor
    · simpa [handleDeleteChat] using hfil
    · simp [handleDeleteChat, hA, hfil, jsFirstIdOrNull]

/-- Claim C4 witness: deleting the active only thread. -/
theorem deleteThread_spec_witness :
    (handleDeleteChat "A" ⟨[⟨"A", "T", [], 0⟩], some "A"⟩).chats = []
    ∧ (handleDeleteChat "A" ⟨[⟨"A", "T", [], 0⟩], some "A"⟩).activeChatId = none :=
  (deleteThread_spec ⟨[⟨"A", "T", [], 0⟩], some "A"⟩ "A").2.2.2.2 (by decide) rfl

/-- Claim C5: appendMessage with a null active id leaves the session
state entirely unchanged (no message is stored anywhere), and with a
truthy active id it appends exactly the one message to the end of the
message list of the active thread while every thread with a different id
stays in the list. -/
theorem appendMessage_spec (role content : String) (s : SessionState) :
    (s.activeChatId = none → appendMessage role content s = s)
    ∧ (∀ aid : String, s.activeChatId = some aid → aid ≠ "" →
        getActiveChat (appendMessage role content s)
          = (getActiveChat s).map
              (fun c => { c with messages := c.messages ++ [⟨role, content⟩] })
        ∧ ∀ c ∈ s.chats, c.id ≠ aid → c ∈ (appendMessage role content s).chats) := by
  constructor
  · intro hA
    simp [appendMessage, hA]
  · intro aid hA hne
    refine ⟨getActiveChat_appendMessage role content aid s hA hne, ?_⟩
    intro c hc hcne
    rw [appendMessage_chats role content aid s hA hne]
    exact List.mem_map.2 ⟨c, hc, by simp [hcne]⟩

/-- Claim C5 witness: appending to a concrete active thread. -/
theorem appendMessage_spec_witness :
    getActiveChat (appendMessage "user" "hi" ⟨[⟨"A", "T", [], 0⟩], some "A"⟩)
      = some ⟨"A", "T", [⟨"user", "hi"⟩], 0⟩ :=
  (((appendMessage_spec "user" "hi" ⟨[⟨"A", "T", [], 0⟩], some "A"⟩).2
    "A" rfl (by decide)).1).trans (by decide)

/-- Claim C10: with a truthy active id, appendMessage changes only the
messages field of the threads carrying the active id: the active pointer
is unchanged, the list keeps its length, every thread keeps its position,
id, title and creation time, threads with a different id are untouched,
and a thread with the active id only gets the one message appended. -/
theorem appendMessage_frame (role content aid : String) (s : SessionState)
    (ha : s.activeChatId = some aid) (hne : aid ≠ "") :
    (appendMessage role content s).activeChatId = s.activeChatId
    ∧ (appendMessage role content s).chats.length = s.chats.length
    ∧ ∀ (i : Nat) (hi : i < s.chats.length)
        (hi2 : i < (appendMessage role content s).chats.length),
        (((appendMessage role content s).chats.get ⟨i, hi2⟩).id
            = (s.chats.get ⟨i, hi⟩).id
          ∧ ((appendMessage role content s).chats.get ⟨i, hi2⟩).title
            = (s.chats.get ⟨i, hi⟩).title
          ∧ ((appendMessage role content s).chats.get ⟨i, hi2⟩).createdAt
            = (s.chats.get ⟨i, hi⟩).createdAt)
        ∧ ((s.chats.get ⟨i, hi⟩).id ≠ aid →
            (appendMessage role content s).chats.get ⟨i, hi2⟩ = s.chats.get ⟨i, hi⟩)
        ∧ ((s.chats.get ⟨i, hi⟩).id = aid →
            ((appendMessage role content s).chats.get ⟨i, hi2⟩).messages
              = (s.chats.get ⟨i, hi⟩).messages ++ [⟨role, content⟩]) := by
  have hch := appendMessage_chats role content aid s ha hne
  refine ⟨appendMessage_activeChatId role content s, ?_, ?_⟩
  · rw [hch]
    simp [updateById]
  · intro i hi hi2
    simp only [List.get_eq_getElem]
    by_cases hcid : (s.chats[i]).id = aid
    · simp [hch, updateById, List.getElem_map, hcid]
    · simp [hch, updateById, List.getElem_map, hcid]

/-- Claim C10 witness: the frame conditions on a concrete two-thread
state. -/
theorem appendMessage_frame_witness :
    (appendMessage "user" "hi"
        ⟨[⟨"A", "T", [], 0⟩, ⟨"B", "U", [], 1⟩], some "A"⟩).activeChatId
      = (⟨[⟨"A", "T", [], 0⟩, ⟨"B", "U", [], 1⟩], some "A"⟩ : SessionState).activeChatId
    ∧ (appendMessage "user" "hi"
        ⟨[⟨"A", "T", [], 0⟩, ⟨"B", "U", [], 1⟩], some "A"⟩).chats.length
      = (⟨[⟨"A", "T", [], 0⟩, ⟨"B", "U", [], 1⟩], some "A"⟩ : SessionState).chats.length :=
  ⟨(appendMessage_frame "user" "hi" "A"
      ⟨[⟨"A", "T", [], 0⟩, ⟨"B", "U", [], 1⟩], some "A"⟩ rfl (by decide)).1,
   (appendMessage_frame "user" "hi" "A"
      ⟨[⟨"A", "T", [], 0⟩, ⟨"B", "U", [], 1⟩], some "A"⟩ rfl (by decide)).2.1⟩

/-- Claim C9: when the upload succeeds with a truthy active id, the title
of the active thread becomes the display name of the file with its
trailing extension stripped, whatever the previous title was (the
hypotheses do not constrain it, so a non-sentinel title is overwritten
too); and stripping turns contract.pdf into contract. -/
theorem upload_success_title (st : ClientState) (freshId : String) (now : Nat)
    (fileName resp aid : String) (ha : st.session.activeChatId = some aid)
    (hne : aid ≠ "") :
    getActiveChat ((handleFileChange freshId now fileName (Except.ok resp) st).session)
      = (getActiveChat st.session).map (fun c => { c with title := stripExt fileName })
    ∧ stripExt "contract.pdf" = "contract" := by
  constructor
  · have h1 : (handleFileChange freshId now fileName (Except.ok resp) st).session
        = updateChatTitle aid (stripExt fileName) st.session := by
      simp [handleFileChange, uploadCore, isFalsyId, ha, hne]
    rw [h1]
    exact getActiveChat_updateChatTitle (stripExt fileName) aid st.session ha
  · decide

/-- Claim C9 witness: uploading contract.pdf over a non-sentinel title. -/
theorem upload_success_title_witness :
    getActiveChat ((handleFileChange "F" 1 "contract.pdf" (Except.ok "done")
        ⟨⟨[⟨"A", "Old Title", [], 0⟩], some "A"⟩, "", false, false,
          UploadStatus.idle, ""⟩).session)
      = some ⟨"A", "contract", [], 0⟩ :=
  ((upload_success_title
      ⟨⟨[⟨"A", "Old Title", [], 0⟩], some "A"⟩, "", false, false,
        UploadStatus.idle, ""⟩
      "F" 1 "contract.pdf" "done" "A" rfl (by decide)).1).trans (by decide)

/-- Claim C8: when the awaited call of handleSend fails (any error
outcome, in chat or document-generation mode both calls are modelled by
the response parameter), the handler appends to the active thread exactly
the user message followed by one assistant message carrying the fixed
error text, and the loading flag is false when the handler returns. The
handler is a total function into the state, mirroring the catch in the
source: no error reaches the caller. -/
theorem send_failure_spec (st : ClientState) (freshId : String) (now : Nat)
    (text aid : String) (ht : jsTrim text ≠ "")
    (ha : st.session.activeChatId = some aid) (hne : aid ≠ "") :
    (handleSend freshId now text (Except.error ()) st).isLoading = false
    ∧ getActiveChat (handleSend freshId now text (Except.error ()) st).session
        = (getActiveChat st.session).map
            (fun c => { c with messages :=
              c.messages ++ [⟨"user", text⟩, ⟨"assistant", errorChatMsg⟩] }) := by
  have hstep : handleSend freshId now text (Except.error ()) st
      = { st with
          session := appendMessage "assistant" errorChatMsg
            (appendMessage "user" text st.session),
          input := "", showFeatures := false, isLoading := false } := by
    simp [handleSend, sendCore, isFalsyId, ht, ha, hne]
  rw [hstep]
  refine ⟨rfl, ?_⟩
  have ha2 : (appendMessage "user" text st.session).activeChatId = some aid := by
    rw [appendMessage_activeChatId, ha]
  have h1 := getActiveChat_appendMessage "user" text aid st.session ha hne
  have h2 := getActiveChat_appendMessage "assistant" errorChatMsg aid
    (appendMessage "user" text st.session) ha2 hne
  show getActiveChat (appendMessage "assistant" errorChatMsg
      (appendMessage "user" text st.session)) = _
  rw [h2, h1]
  cases getActiveChat st.session with
  | none => rfl
  | some c => simp

/-- Claim C8 witness: a failed call on a concrete active thread. -/
theorem send_failure_spec_witness :
    (handleSend "F" 1 "hi" (Except.error ())
        ⟨⟨[⟨"A", "T", [], 0⟩], some "A"⟩, "hi", true, true,
          UploadStatus.idle, ""⟩).isLoading = false
    ∧ getActiveChat (handleSend "F" 1 "hi" (Except.error ())
        ⟨⟨[⟨"A", "T", [], 0⟩], some "A"⟩, "hi", true, true,
          UploadStatus.idle, ""⟩).session
      = some ⟨"A", "T", [⟨"user", "hi"⟩, ⟨"assistant", errorChatMsg⟩], 0⟩ :=
  ⟨(send_failure_spec
      ⟨⟨[⟨"A", "T", [], 0⟩], some "A"⟩, "hi", true, true, UploadStatus.idle, ""⟩
      "F" 1 "hi" "A" (by decide) rfl (by decide)).1,
   ((send_failure_spec
      ⟨⟨[⟨"A", "T", [], 0⟩], some "A"⟩, "hi", true, true, UploadStatus.idle, ""⟩
      "F" 1 "hi" "A" (by decide) rfl (by decide)).2).trans (by decide)⟩

theorem handleSendEvent_stale_loop (freshId : String) (now : Nat)
    (response : Except Unit String) (cap : RenderCapture) (st : ClientState)
    (ht : jsTrim cap.input ≠ "") (hA : cap.activeChatId = none) :
    handleSendEvent freshId now response cap st
      = (handleNewChat freshId now st, some cap) := by
  simp [handleSendEvent, ht, hA]

/-- Claim C3: the claim and the spec require that a send with nonblank
text and no active thread create exactly one thread and append one user
and one assistant message in that order, and the source comments state
the same intent; the executed code does not do this. The deferred
setTimeout retry re-invokes the closure that scheduled it, which captured
the null active id and the original input, so every firing takes the
creation branch again: after the initial event on the empty session with
input hi and two fired retries, three threads exist, no thread holds any
message, and another retry is still pending with the same capture — the
send never completes and the claimed appends never happen. -/
theorem send_no_active_code_bug :
    sendBugTrace.1.session.chats.length = 3
    ∧ sendBugTrace.1.session.chats.all (fun c => c.messages.isEmpty) = true
    ∧ sendBugTrace.2 = some sendBugCapture := by
  decide
